import Mathlib

set_option maxHeartbeats 1000000
set_option maxRecDepth 4000

/-!
Shallow embedding of `Server-check.py` (the server health-check pipeline).

Each Python check function is embedded as a pure Lean function from an
oracle environment `Env` — recording the outcome of every external call
(os.getloadavg, psutil, subprocess.run, the filesystem, HTTP) — to the
ordered list of observable events it performs (leveled messages, file
reads, subprocess invocations, HTTP requests, throttle sleeps) together
with an optional uncaught Python exception.  Python floats are modelled
as exact rationals and the `%.1f`-style decimal rendering of numbers in
messages is abstracted to exact rational rendering (`fmtQ`); no claim
depends on the decimal formatting of a number.
-/

/-- Severity of a leveled message, matching the `info` / `warn` / `error`
helpers of the script (each prints to the console and appends one line to
the durable log). -/
inductive Level
  | info
  | warn
  | error
  deriving DecidableEq

/-- An observable event of the pipeline, in program order. -/
inductive Event
  /-- A leveled message emitted through `info`/`warn`/`error`
  (console + durable log). -/
  | msg (lvl : Level) (text : String)
  /-- A bare `print` call (the banner and the green `is UP` line),
  console only, not leveled. -/
  | print (text : String)
  /-- Content of the file at `path` is read (`p.open(...)`/`readlines`). -/
  | readFile (path : String)
  /-- A subprocess invocation `subprocess.run(args, ...)`. -/
  | runCmd (args : List String)
  /-- An HTTP GET issued by `requests.get`. -/
  | httpGet (url : String)
  /-- The fixed-rate throttle `time.sleep(WEBSITE_THROTTLE_S)`. -/
  | sleepThrottle
  deriving DecidableEq

/-- The Python exceptions the embedded code can raise. -/
inductive PyExc
  /-- `NameError`: an unbound top-level name was referenced. -/
  | nameError (name : String)
  /-- `OSError` and subclasses (`FileNotFoundError`, `PermissionError`),
  as raised by `subprocess.run` when the executable cannot be invoked,
  by `psutil.getloadavg`, or by `psutil.disk_usage`. -/
  | osError (desc : String)
  /-- `subprocess.CalledProcessError`, raised by `subprocess.run(...,
  check=True)` when the command exits with a nonzero status. -/
  | calledProcessError (args : List String)
  /-- `requests.RequestException`: a network-level failure of an HTTP
  request (timeout, DNS, connection refused, TLS error, ...). -/
  | requestException (desc : String)
  deriving DecidableEq

/-- Outcome of handing an argument vector to the OS to execute:
either the process ran (with an exit code and captured stdout), or the
exec itself failed (`FileNotFoundError` / `PermissionError` - an
`OSError`). -/
inductive CmdOutcome
  | ran (exitCode : Nat) (stdout : String)
  | execFail (desc : String)
  deriving DecidableEq

/-- `true` iff the command was actually executed (exec did not fail). -/
def CmdOutcome.isRan : CmdOutcome → Bool
  | .ran _ _ => true
  | .execFail _ => false

/-- Outcome of `requests.get url`: an HTTP response status code, or a
network-level failure described by `desc`. -/
inductive HttpResult
  | status (code : Nat)
  | netFail (desc : String)
  deriving DecidableEq

/-- One entry of `psutil.disk_partitions(all=False)`; only the
`mountpoint` field is consulted by the script. -/
structure Partition where
  mountpoint : String
  deriving DecidableEq

/-- The fields of `psutil.disk_usage(mountpoint)` used by the script:
used percentage, and used/total in bytes. -/
structure DiskUsage where
  percent : ℚ
  used : Nat
  total : Nat
  deriving DecidableEq

/-- The fields of `psutil.virtual_memory()` used by the script:
available bytes and percent used. -/
structure VirtMem where
  available : Nat
  percent : ℚ
  deriving DecidableEq

/-- Stat/contents of a log file as the filesystem reports them:
`size` is `p.stat().st_size` in bytes, `lines` is the `readlines()`
decomposition of the (error-tolerantly decoded) content; elements may
retain their trailing newline. -/
structure FileData where
  size : Nat
  lines : List String
  deriving DecidableEq

/-- The resolved configuration of the script (environment variables with
their defaults, the log paths, and the website list).  All numeric
thresholds are non-negative (`Nat`), matching the config invariant. -/
structure Config where
  diskWarningThreshold : Nat
  memoryWarningThresholdMB : Nat
  logSizeThresholdMB : Nat
  websiteTimeoutS : ℚ
  websiteThrottleS : ℚ
  apacheLog : String
  nginxLog : String
  mysqlLog : String
  websites : List String
  logFilePath : String

/-- Oracle environment: the outcome of every external call the pipeline
can make.  The oracle is deterministic per argument — sufficient for all
properties considered here. -/
structure Env where
  /-- `os.getloadavg()`: three load averages, or a raised
  `AttributeError`/`OSError` (the two classes the script catches),
  collapsed to `Except Unit`. -/
  osLoadavg : Except Unit (ℚ × ℚ × ℚ)
  /-- `psutil.getloadavg()`: three load averages, or a raised `OSError`
  with its description (not caught anywhere in the script). -/
  psLoadavg : Except String (ℚ × ℚ × ℚ)
  /-- `psutil.cpu_percent(interval=1)`. -/
  cpuPercent : ℚ
  /-- `psutil.sensors_temperatures()`: a mapping sensor-name to entries
  (each entry's `current` temperature), or a raised
  `AttributeError`/`KeyError` (the two classes the script catches),
  collapsed to `Except Unit`. -/
  sensorsTemps : Except Unit (List (String × List ℚ))
  /-- `psutil.disk_partitions(all=False)`. -/
  partitions : List Partition
  /-- `psutil.disk_usage(mountpoint)`: usage data, or a raised `OSError`
  with its description (not caught anywhere in the script). -/
  diskUsage : String → Except String DiskUsage
  /-- `psutil.virtual_memory()`. -/
  virtualMemory : VirtMem
  /-- `subprocess.run(args, ...)`: exec outcome per argument vector. -/
  runCommand : List String → CmdOutcome
  /-- The filesystem as seen by `Path.exists` / `stat` / `open`:
  `none` means the path does not exist. -/
  fileSystem : String → Option FileData
  /-- `requests.get url`. -/
  httpGet : String → HttpResult

/-- Abstracted rendering of a Python float (exact rational) in a message. -/
def fmtQ (q : ℚ) : String := toString q

/-- Python `str.lower()` (ASCII case folding, which is all the keyword
match needs), as a structurally recursive character map. -/
def pyLower (s : String) : String := ⟨s.toList.map Char.toLower⟩

/-- Python `str.strip()` / `bytes.strip()` with no argument: remove
leading and trailing whitespace. -/
def pyStrip (s : String) : String :=
  ⟨((s.toList.dropWhile Char.isWhitespace).reverse.dropWhile
      Char.isWhitespace).reverse⟩

/-- A single-quote character, used verbatim in the temperature message. -/
def sQuote : String := String.singleton (Char.ofNat 39)

/-- `true` iff `e` is a leveled message of level `lvl`. -/
def isMsgOfLevel (lvl : Level) : Event → Bool
  | .msg l _ => decide (l = lvl)
  | _ => false

/-- The error-level messages of a trace, in order. -/
def errorAlerts (evs : List Event) : List Event :=
  evs.filter (isMsgOfLevel .error)

/-- Top-level names bound by the import statements of the script
(lines 18-27): module imports bind the module name, `from`-imports bind
the imported attribute.  Notably the name `requests`, used by
`check_websites`, is never bound. -/
def importedNames : List String :=
  ["os", "sys", "time", "logging", "subprocess", "Path", "datetime",
   "colorama_init", "Fore", "Style", "psutil", "load_dotenv"]

/-- Whether the top-level name `requests` is bound when `check_websites`
runs.  Referencing an unbound name raises `NameError` in Python. -/
def requestsBound : Bool := importedNames.contains "requests"

/-- The message `Load Average (1m/5m/15m): a/b/c`. -/
def loadMsg (a b c : ℚ) : String :=
  "Load Average (1m/5m/15m): " ++ fmtQ a ++ "/" ++ fmtQ b ++ "/" ++ fmtQ c

/-- `check_system_load` (lines 77-83): try `os.getloadavg()`; on
`AttributeError`/`OSError` fall back to `psutil.getloadavg()`, whose own
failure is not caught and propagates. -/
def check_system_load (env : Env) : List Event × Option PyExc :=
  let hdr := Event.msg .info "Checking system load..."
  match env.osLoadavg with
  | .ok (a, b, c) => ([hdr, .msg .info (loadMsg a b c)], none)
  | .error _ =>
    match env.psLoadavg with
    | .ok (a, b, c) => ([hdr, .msg .info (loadMsg a b c)], none)
    | .error m => ([hdr], some (.osError m))

/-- `check_cpu` (lines 85-95): sample CPU percent, then try reading
temperature sensors; `AttributeError`/`KeyError` is caught and turned
into a single warning. -/
def check_cpu (env : Env) : List Event × Option PyExc :=
  let hdr := Event.msg .info "Checking CPU usage and temperature..."
  let usage := Event.msg .info ("CPU Usage: " ++ fmtQ env.cpuPercent ++ "%")
  match env.sensorsTemps with
  | .ok temps =>
    ([hdr, usage] ++
      temps.flatMap (fun p =>
        p.2.map (fun t =>
          Event.msg .info
            ("Temp sensor " ++ sQuote ++ p.1 ++ sQuote ++ ": " ++ fmtQ t ++ "Â°C"))),
     none)
  | .error _ =>
    ([hdr, usage,
      .msg .warn "CPU temperature data not available on this system."], none)

/-- The events `check_disk_space` emits for one partition (lines
100-104): `psutil.disk_usage` (which may raise, uncaught), an info line,
and a warning iff the used percentage strictly exceeds the threshold. -/
def emitPart (cfg : Config) (env : Env) (p : Partition) :
    List Event × Option PyExc :=
  match env.diskUsage p.mountpoint with
  | .error m => ([], some (.osError m))
  | .ok u =>
    let infoLine :=
      Event.msg .info
        (p.mountpoint ++ ": " ++ fmtQ u.percent ++ "% used (" ++
         toString (u.used / 2 ^ 30) ++ "GiB/" ++
         toString (u.total / 2 ^ 30) ++ "GiB)")
    if u.percent > (cfg.diskWarningThreshold : ℚ) then
      ([infoLine,
        .msg .warn
          ("High disk usage on " ++ p.mountpoint ++ ": " ++
           fmtQ u.percent ++ "%")], none)
    else
      ([infoLine], none)

/-- The per-partition loop of `check_disk_space`; an uncaught exception
from `psutil.disk_usage` aborts the remaining partitions. -/
def diskLoop (cfg : Config) (env : Env) :
    List Partition → List Event × Option PyExc
  | [] => ([], none)
  | p :: rest =>
    let r := emitPart cfg env p
    match r.2 with
    | some e => (r.1, some e)
    | none =>
      let r2 := diskLoop cfg env rest
      (r.1 ++ r2.1, r2.2)

/-- `check_disk_space` (lines 97-104). -/
def check_disk_space (cfg : Config) (env : Env) :
    List Event × Option PyExc :=
  let r := diskLoop cfg env env.partitions
  (Event.msg .info "Checking disk space usage..." :: r.1, r.2)

/-- `check_memory` (lines 106-112): available MB (integer division by
2^20), info line, and a warning iff strictly below the threshold. -/
def check_memory (cfg : Config) (env : Env) : List Event × Option PyExc :=
  let freeMb := env.virtualMemory.available / 2 ^ 20
  let base :=
    [Event.msg .info "Checking memory usage...",
     Event.msg .info
       ("Available Memory: " ++ toString freeMb ++ "MB (" ++
        fmtQ env.virtualMemory.percent ++ "% used)")]
  if freeMb < cfg.memoryWarningThresholdMB then
    (base ++ [Event.msg .warn ("Low free memory: " ++ toString freeMb ++ "MB")],
     none)
  else (base, none)

/-- The trimmed stdout of `systemctl is-active svc` when the command
could be executed (exit code ignored, as in the script), else `none`. -/
def liveStatus (env : Env) (svc : String) : Option String :=
  match env.runCommand ["systemctl", "is-active", svc] with
  | .ran _ out => some (pyStrip out)
  | .execFail _ => none

/-- The set-building loop of `restart_services` (lines 117-119): for
each candidate, run `systemctl is-active` (capture_output, no check:
an exec failure raises `OSError`, uncaught) and keep the candidate iff
the stripped stdout equals `active`. -/
def buildLoop (env : Env) : List String → List Event × Except PyExc (List String)
  | [] => ([], .ok [])
  | svc :: rest =>
    let cmd := ["systemctl", "is-active", svc]
    match env.runCommand cmd with
    | .execFail m => ([.runCmd cmd], .error (.osError m))
    | .ran _ out =>
      let r := buildLoop env rest
      (Event.runCmd cmd :: r.1,
       r.2.map (fun l => if pyStrip out = "active" then svc :: l else l))

/-- The restart set of `restart_services`: the `OnlyIfActive` candidates
`apache2`, `nginx` that are currently reported active, followed by the
`Always` service `mysql`; or the exception raised while querying. -/
def restartSet (env : Env) : Except PyExc (List String) :=
  match buildLoop env ["apache2", "nginx"] with
  | (_, .error e) => .error e
  | (_, .ok l) => .ok (l ++ ["mysql"])

/-- One iteration of the restart loop (lines 121-129): info message,
`systemctl restart svc` with `check=True` (nonzero exit raises
`CalledProcessError` — caught and folded into the single error message;
exec failure raises `OSError` — NOT caught), then on success a status
query (capture_output; exec failure again raises `OSError`, uncaught)
whose trimmed stdout is reported verbatim. -/
def restartOne (env : Env) (svc : String) : List Event × Option PyExc :=
  let infoEv := Event.msg .info ("Restarting " ++ svc ++ "...")
  let restartCmd := ["systemctl", "restart", svc]
  let statusCmd := ["systemctl", "is-active", svc]
  match env.runCommand restartCmd with
  | .execFail m => ([infoEv, .runCmd restartCmd], some (.osError m))
  | .ran code _ =>
    if code = 0 then
      match env.runCommand statusCmd with
      | .execFail m =>
        ([infoEv, .runCmd restartCmd, .runCmd statusCmd], some (.osError m))
      | .ran _ out =>
        ([infoEv, .runCmd restartCmd, .runCmd statusCmd,
          .msg .info (svc ++ " status: " ++ pyStrip out)], none)
    else
      ([infoEv, .runCmd restartCmd,
        .msg .error ("Failed to restart or find service: " ++ svc)], none)

/-- The restart loop over the built service list; an uncaught exception
in one iteration aborts the remaining services. -/
def restartLoop (env : Env) : List String → List Event × Option PyExc
  | [] => ([], none)
  | svc :: rest =>
    let r := restartOne env svc
    match r.2 with
    | some e => (r.1, some e)
    | none =>
      let r2 := restartLoop env rest
      (r.1 ++ r2.1, r2.2)

/-- `restart_services` (lines 114-129). -/
def restart_services (env : Env) : List Event × Option PyExc :=
  let hdr := Event.msg .info "Restarting active web & DB services..."
  match buildLoop env ["apache2", "nginx"] with
  | (evs, .error e) => (hdr :: evs, some e)
  | (evs, .ok l) =>
    let r := restartLoop env (l ++ ["mysql"])
    (hdr :: evs ++ r.1, r.2)

/-- `true` iff the restart command for `svc` runs and exits nonzero
(the `CalledProcessError` case of the restart loop). -/
def restartCmdFails (env : Env) (svc : String) : Bool :=
  match env.runCommand ["systemctl", "restart", svc] with
  | .ran c _ => decide (c ≠ 0)
  | .execFail _ => false

/-- The size cap in bytes: `LOG_SIZE_THRESHOLD_MB * 1024 * 1024`. -/
def sizeCapBytes (cfg : Config) : Nat := cfg.logSizeThresholdMB * 1024 * 1024

/-- Python `lines[-50:]`-style slicing: the last `n` elements. -/
def lastN (n : Nat) (l : List String) : List String := l.drop (l.length - n)

/-- Python `p.name`: the final path component (the characters after
the last path separator). -/
def baseName (path : String) : String :=
  ⟨(path.toList.reverse.takeWhile (fun c => c != Char.ofNat 47)).reverse⟩

/-- Python substring containment `needle in hay` on character lists. -/
def occursIn (needle : List Char) : List Char → Bool
  | [] => needle.isEmpty
  | c :: rest => needle.isPrefixOf (c :: rest) || occursIn needle rest

/-- Case-insensitive keyword match of one log line (line 143):
`any(term in line.lower() for term in ("error", "fail", "critical"))` —
plain substring containment on the lowercased line. -/
def matchesKeywords (line : String) : Bool :=
  ["error", "fail", "critical"].any
    (fun t => occursIn t.toList (pyLower line).toList)

/-- The error alerts one retained line contributes (lines 142-144):
one error message echoing the stripped line iff any keyword matches —
at most one alert per line however many keywords occur. -/
def lineAlerts (fileName line : String) : List Event :=
  if matchesKeywords line then
    [.msg .error (fileName ++ ": " ++ pyStrip line)]
  else []

/-- `check_logs` (lines 131-144): missing file → warning, no read;
size strictly above the cap → skip warning, no read; otherwise read the
file, keep the last 50 lines, and emit one error alert per matching
line. -/
def check_logs (cfg : Config) (env : Env) (path : String) :
    List Event × Option PyExc :=
  let hdr := Event.msg .info ("Scanning logs: " ++ path)
  match env.fileSystem path with
  | none => ([hdr, .msg .warn ("Log file not found: " ++ path)], none)
  | some fd =>
    if fd.size > sizeCapBytes cfg then
      ([hdr,
        .msg .warn
          ("Skipping " ++ path ++ " (>" ++
           toString cfg.logSizeThresholdMB ++ "MB)")], none)
    else
      ([hdr, .readFile path] ++
        (lastN 50 fd.lines).flatMap (lineAlerts (baseName path)), none)

/-- The body of one website probe (lines 152-158) as Python evaluates
it: the expression `requests.get(url, ...)` first resolves the name
`requests`; since that name is unbound (`requestsBound = false`), a
`NameError` is raised before any request is issued.  Were the name
bound, the response would be classified: 200 → green `is UP` print plus
info log line; other status → warning; network failure → raised
`requests.RequestException`. -/
def probeSiteRaw (env : Env) (url : String) : List Event × Option PyExc :=
  if requestsBound then
    match env.httpGet url with
    | .status code =>
      if code = 200 then
        ([.httpGet url, .print (url ++ " is UP"),
          .msg .info (url ++ " status 200 OK")], none)
      else
        ([.httpGet url, .msg .warn (url ++ " returned " ++ toString code)],
         none)
    | .netFail d => ([.httpGet url], some (.requestException d))
  else
    ([], some (.nameError "requests"))

/-- The try/except of one probe (lines 152-160): the handler clause
`except requests.RequestException` itself resolves the name `requests`;
when that name is unbound the handler raises `NameError` instead of
catching, so nothing is ever caught.  Were the name bound, a
`RequestException` would be folded into an error message. -/
def probeSiteCaught (env : Env) (url : String) : List Event × Option PyExc :=
  let r := probeSiteRaw env url
  match r.2 with
  | some (.requestException d) =>
    if requestsBound then
      (r.1 ++ [.msg .error (url ++ " check failed: " ++ d)], none)
    else
      (r.1, some (.nameError "requests"))
  | other => (r.1, other)

/-- The per-URL loop of `check_websites` (lines 151-161): probe, then
throttle-sleep; an uncaught exception aborts the remaining URLs. -/
def siteLoop (env : Env) : List String → List Event × Option PyExc
  | [] => ([], none)
  | url :: rest =>
    let r := probeSiteCaught env url
    match r.2 with
    | some e => (r.1, some e)
    | none =>
      let r2 := siteLoop env rest
      (r.1 ++ [Event.sleepThrottle] ++ r2.1, r2.2)

/-- `check_websites` (lines 146-161). -/
def check_websites (cfg : Config) (env : Env) : List Event × Option PyExc :=
  if cfg.websites.isEmpty then
    ([.msg .warn "No websites configured to check."], none)
  else
    let r := siteLoop env cfg.websites
    (Event.msg .info "Checking website statuses..." :: r.1, r.2)

/-- The nine pipeline stages of `main` (lines 174-182). -/
inductive Stage
  | load
  | cpu
  | disk
  | memory
  | serviceRestart
  | logScan (path : String)
  | website
  deriving DecidableEq

/-- The fixed stage sequence of `main`: Load, CPU, Disk, Memory,
ServiceRestart, LogScan(Apache), LogScan(Nginx), LogScan(MySQL),
WebsiteProbe. -/
def stageList (cfg : Config) : List Stage :=
  [.load, .cpu, .disk, .memory, .serviceRestart,
   .logScan cfg.apacheLog, .logScan cfg.nginxLog, .logScan cfg.mysqlLog,
   .website]

/-- Dispatch one stage to its check function. -/
def runStage (cfg : Config) (env : Env) : Stage → List Event × Option PyExc
  | .load => check_system_load env
  | .cpu => check_cpu env
  | .disk => check_disk_space cfg env
  | .memory => check_memory cfg env
  | .serviceRestart => restart_services env
  | .logScan p => check_logs cfg env p
  | .website => check_websites cfg env

/-- Run the stages in sequence, as the straight-line body of `main`
does: an uncaught exception in one stage skips all later stages
(propagating to the top-level handler). -/
def runStages (cfg : Config) (env : Env) :
    List Stage → List Event × Option PyExc
  | [] => ([], none)
  | s :: rest =>
    let r := runStage cfg env s
    match r.2 with
    | some e => (r.1, some e)
    | none =>
      let r2 := runStages cfg env rest
      (r.1 ++ r2.1, r2.2)

/-- The stages of a stage list that `main` actually enters, in order:
all of them while no stage raises, and nothing past the first stage
whose check raises an uncaught exception. -/
def invokedStages (cfg : Config) (env : Env) : List Stage → List Stage
  | [] => []
  | s :: rest =>
    match (runStage cfg env s).2 with
    | some _ => [s]
    | none => s :: invokedStages cfg env rest

/-- The 46-character separator bar of the banner. -/
def bannerBar : String := ⟨List.replicate 46 (Char.ofNat 61)⟩

/-- The banner printed by `display_banner` (lines 163-169). -/
def bannerText : String :=
  bannerBar ++
  "\n      Welcome to SHC (Server Health Check)    " ++
  "\n     A Powerful Tool for Security Research    " ++
  "\n                   Developed by the_shadow_0  " ++
  "\n" ++ bannerBar

/-- `main` (lines 171-184): banner, start message, the nine stages in
fixed order, and on normal completion the closing messages.  (Named
`pyMain` because a Lean executable reserves the name `main`.) -/
def pyMain (cfg : Config) (env : Env) : List Event × Option PyExc :=
  let hdr := [Event.print bannerText,
              Event.msg .info "=== Server(VPS) Health Check Started ==="]
  let r := runStages cfg env (stageList cfg)
  match r.2 with
  | some e => (hdr ++ r.1, some e)
  | none =>
    (hdr ++ r.1 ++
      [Event.msg .info "=== Health Check Complete ===",
       Event.msg .info ("Log file: " ++ cfg.logFilePath)], none)

/-- Rendering of an exception by the top-level handler's `f-string`. -/
def excMsg : PyExc → String
  | .nameError n => "name " ++ sQuote ++ n ++ sQuote ++ " is not defined"
  | .osError d => d
  | .calledProcessError args =>
    "Command " ++ toString args ++ " returned non-zero exit status."
  | .requestException d => d

/-- The `__main__` guard (lines 186-191): run `main`, catch any
exception once at the top, log it as an error and exit 1; exit 0
otherwise. -/
def program (cfg : Config) (env : Env) : List Event × Nat :=
  match pyMain cfg env with
  | (evs, none) => (evs, 0)
  | (evs, some e) =>
    (evs ++ [Event.msg .error ("Unhandled exception: " ++ excMsg e)], 1)

/-! ## Concrete fixtures for witnesses and counterexamples -/

/-- The configuration obtained from the defaults in lines 47-58 of the
script (no environment overrides, no `websites.txt`). -/
def cfgDefault : Config :=
  { diskWarningThreshold := 90
    memoryWarningThresholdMB := 100
    logSizeThresholdMB := 10
    websiteTimeoutS := 5
    websiteThrottleS := 1
    apacheLog := "/var/log/apache2/error.log"
    nginxLog := "/var/log/nginx/error.log"
    mysqlLog := "/var/log/mysql/error.log"
    websites := []
    logFilePath := "health_check_20261012_000000.log" }

/-- A fully healthy host: every external call succeeds. -/
def envOk : Env :=
  { osLoadavg := .ok (1, 2, 3)
    psLoadavg := .ok (1, 2, 3)
    cpuPercent := 12
    sensorsTemps := .ok [("coretemp", [42])]
    partitions := [⟨"/"⟩]
    diskUsage := fun _ => .ok ⟨50, 40 * 2 ^ 30, 80 * 2 ^ 30⟩
    virtualMemory := ⟨2048 * 2 ^ 20, 50⟩
    runCommand := fun _ => .ran 0 "active\n"
    fileSystem := fun _ => none
    httpGet := fun _ => .status 200 }

/-- `true` iff `e` is a file-content read. -/
def isReadEvent : Event → Bool
  | .readFile _ => true
  | _ => false

/-- An oversized Apache log: exactly `sizeCapBytes + 1` bytes. -/
def fdBig : FileData := ⟨sizeCapBytes cfgDefault + 1, ["error: huge\n"]⟩

/-- Host where the Apache log exists but is one byte over the cap, and
every other log path is missing. -/
def envLogBig : Env :=
  { envOk with
    fileSystem := fun p =>
      if p = "/var/log/apache2/error.log" then some fdBig else none }

/-! ## C3: the size guard of the log scanner -/

/-- Claim C3: for every log target, `check_logs` reads no file content
when the file's size exceeds `sizeCapBytes` — it emits a skip warning
and returns without a read attempt — and a missing file yields a
not-found warning and returns without a read attempt. -/
theorem c3_size_guard (cfg : Config) (env : Env) (path : String) :
    (env.fileSystem path = none →
      check_logs cfg env path =
        ([.msg .info ("Scanning logs: " ++ path),
          .msg .warn ("Log file not found: " ++ path)], none) ∧
      (check_logs cfg env path).1.filter isReadEvent = []) ∧
    (∀ fd : FileData, env.fileSystem path = some fd →
      sizeCapBytes cfg < fd.size →
      check_logs cfg env path =
        ([.msg .info ("Scanning logs: " ++ path),
          .msg .warn ("Skipping " ++ path ++ " (>" ++
            toString cfg.logSizeThresholdMB ++ "MB)")], none) ∧
      (check_logs cfg env path).1.filter isReadEvent = []) := by
  constructor
  · intro h
    simp [check_logs, h, isReadEvent]
  · intro fd hfd hsize
    simp [check_logs, hfd, hsize, isReadEvent]

/-- Witness for C3: a missing Nginx log yields only the not-found
warning with no read, and an Apache log of exactly `sizeCapBytes + 1`
bytes yields only the skip warning with no read. -/
theorem c3_witness :
    (check_logs cfgDefault envLogBig "/var/log/nginx/error.log" =
        ([.msg .info ("Scanning logs: " ++ "/var/log/nginx/error.log"),
          .msg .warn ("Log file not found: " ++ "/var/log/nginx/error.log")],
         none) ∧
      (check_logs cfgDefault envLogBig "/var/log/nginx/error.log").1.filter
        isReadEvent = []) ∧
    (check_logs cfgDefault envLogBig "/var/log/apache2/error.log" =
        ([.msg .info ("Scanning logs: " ++ "/var/log/apache2/error.log"),
          .msg .warn ("Skipping " ++ "/var/log/apache2/error.log" ++ " (>" ++
            toString cfgDefault.logSizeThresholdMB ++ "MB)")], none) ∧
      (check_logs cfgDefault envLogBig "/var/log/apache2/error.log").1.filter
        isReadEvent = []) :=
  ⟨(c3_size_guard cfgDefault envLogBig "/var/log/nginx/error.log").1 rfl,
   (c3_size_guard cfgDefault envLogBig "/var/log/apache2/error.log").2
     fdBig rfl (by decide)⟩

/-! ## C9 and C10: keyword scanning of the retained tail lines -/

/-- Filtering the per-line alerts of a line list down to error messages
recovers exactly one error per matching line, echoing the trimmed line. -/
theorem errorAlerts_flatMap_lineAlerts (name : String) (l : List String) :
    errorAlerts (l.flatMap (lineAlerts name)) =
      (l.filter matchesKeywords).map
        (fun s => Event.msg .error (name ++ ": " ++ pyStrip s)) := by
  induction l with
  | nil => rfl
  | cons s rest ih =>
    by_cases h : matchesKeywords s
    · simp [errorAlerts, lineAlerts, h, isMsgOfLevel] at ih ⊢
      exact ih
    · simp [errorAlerts, lineAlerts, h, isMsgOfLevel] at ih ⊢
      exact ih

/-- Claim C9: for a log file within the size cap, `check_logs` emits one
error-level result per keyword-matching line among the last 50 lines
(`lines[-50:]`), in order, each echoing the (stripped) line content
unchanged; no deduplication, and lines before the last 50 contribute
nothing — the error alerts are a function of the retained tail only. -/
theorem c9_tail_scan (cfg : Config) (env : Env) (path : String)
    (fd : FileData) (hfs : env.fileSystem path = some fd)
    (hsize : ¬ fd.size > sizeCapBytes cfg) :
    errorAlerts (check_logs cfg env path).1 =
      ((lastN 50 fd.lines).filter matchesKeywords).map
        (fun s => Event.msg .error (baseName path ++ ": " ++ pyStrip s)) ∧
    (errorAlerts (check_logs cfg env path).1).length =
      ((lastN 50 fd.lines).filter matchesKeywords).length ∧
    (check_logs cfg env path).2 = none := by
  have hmain : errorAlerts (check_logs cfg env path).1 =
      ((lastN 50 fd.lines).filter matchesKeywords).map
        (fun s => Event.msg .error (baseName path ++ ": " ++ pyStrip s)) := by
    have hfilter := errorAlerts_flatMap_lineAlerts (baseName path)
      (lastN 50 fd.lines)
    simp [check_logs, hfs, hsize, errorAlerts, isMsgOfLevel] at hfilter ⊢
    exact hfilter
  refine ⟨hmain, ?_, ?_⟩
  · rw [hmain, List.length_map]
  · simp [check_logs, hfs, hsize]

/-- A 55-line Apache log whose first 5 lines contain a matching line
(outside the retained window) and whose last 50 lines contain exactly 3
matching lines. -/
def fd55 : FileData :=
  ⟨4000,
   ["ERROR during boot\n", "ok\n", "ok\n", "ok\n", "ok\n"] ++
     List.replicate 47 "routine line\n" ++
     ["disk FAILURE imminent\n", "a Critical event\n", "error: x\n"]⟩

/-- Host whose Apache log is `fd55`. -/
def envLog55 : Env :=
  { envOk with
    fileSystem := fun p =>
      if p = "/var/log/apache2/error.log" then some fd55 else none }

/-- Witness for C9: on `fd55`, exactly 3 matching lines are retained
and exactly 3 error alerts are emitted, echoing the trimmed lines. -/
theorem c9_witness :
    errorAlerts (check_logs cfgDefault envLog55 "/var/log/apache2/error.log").1 =
      ((lastN 50 fd55.lines).filter matchesKeywords).map
        (fun s =>
          Event.msg .error
            (baseName "/var/log/apache2/error.log" ++ ": " ++ pyStrip s)) ∧
    ((lastN 50 fd55.lines).filter matchesKeywords).length = 3 ∧
    ((lastN 50 fd55.lines).filter matchesKeywords) =
      ["disk FAILURE imminent\n", "a Critical event\n", "error: x\n"] := by
  have h := c9_tail_scan cfgDefault envLog55 "/var/log/apache2/error.log"
    fd55 rfl (by decide)
  exact ⟨h.1, by decide, by decide⟩

/-- Claim C10: each retained line contributes at most one error-level
result, however many of the keywords `error`, `fail`, `critical` occur
in it; and matching is case-insensitive substring containment, so any
keyword occurring anywhere in the lowercased line (also inside a longer
word such as `failure`) forces exactly one alert for that line. -/
theorem c10_one_alert_per_line (name line : String) :
    (lineAlerts name line).length ≤ 1 ∧
    (∀ t ∈ (["error", "fail", "critical"] : List String),
      occursIn t.toList (pyLower line).toList = true →
      (lineAlerts name line).length = 1) := by
  by_cases h : matchesKeywords line
  · simp [lineAlerts, h]
  · refine ⟨by simp [lineAlerts, h], ?_⟩
    intro t ht hocc
    exfalso
    have : matchesKeywords line = true := by
      simp only [matchesKeywords, List.any_eq_true]
      exact ⟨t, ht, hocc⟩
    simp [this] at h

/-- Witness for C10: the line `A Critical ERROR caused total failure`
contains all three keywords (one of them inside the longer word
`failure`) yet yields exactly one error alert. -/
theorem c10_witness :
    (lineAlerts "error.log" "A Critical ERROR caused total failure\n").length
      = 1 :=
  (c10_one_alert_per_line "error.log"
      "A Critical ERROR caused total failure\n").2
    "fail" (by decide) (by decide)

/-! ## C7: absent CPU temperature sensors (corrected) -/

/-- Host where the temperature-sensor query is structurally unavailable
(`psutil.sensors_temperatures` raises `AttributeError`). -/
def envNoTemps : Env := { envOk with sensorsTemps := .error () }

/-- Host where the temperature-sensor query succeeds but reports an
empty sensor map — `psutil.sensors_temperatures()` returning `{}`, its
result on a Linux host with no temperature sensors.  Sensor data is
entirely absent here too, yet the query does not raise. -/
def envEmptyTemps : Env := { envOk with sensorsTemps := .ok [] }

/-- Counterexample for C7 as stated: on a host whose sensor query
succeeds with an empty sensor map, CPU temperature data is entirely
absent, yet `check_cpu` emits NO warning at all — the `for` loop over
the empty map runs zero times and the `except` branch carrying the
`CPU temperature data not available` warning is never reached — so
"entirely absent → exactly one warning" fails. -/
theorem c7_counterexample :
    envEmptyTemps.sensorsTemps = .ok [] ∧
    (check_cpu envEmptyTemps).1.filter (isMsgOfLevel .warn) = [] ∧
    (check_cpu envEmptyTemps).2 = none :=
  ⟨rfl, rfl, rfl⟩

/-- Claim C7 as amended: `check_cpu` emits exactly one warning
`CPU temperature data not available on this system.` and no error-level
result, returning normally, precisely when the sensor query raises (the
`AttributeError`/`KeyError` capability-not-available case); when the
query instead succeeds with an empty sensor map — sensor data equally
absent — it emits no warning and no error, silently skipping the
notice, and still returns normally. -/
theorem c7_amended (env : Env) :
    (env.sensorsTemps = .error () →
      check_cpu env =
        ([.msg .info "Checking CPU usage and temperature...",
          .msg .info ("CPU Usage: " ++ fmtQ env.cpuPercent ++ "%"),
          .msg .warn "CPU temperature data not available on this system."],
         none) ∧
      ((check_cpu env).1.filter (isMsgOfLevel .warn)).length = 1 ∧
      errorAlerts (check_cpu env).1 = []) ∧
    (env.sensorsTemps = .ok [] →
      check_cpu env =
        ([.msg .info "Checking CPU usage and temperature...",
          .msg .info ("CPU Usage: " ++ fmtQ env.cpuPercent ++ "%")], none) ∧
      (check_cpu env).1.filter (isMsgOfLevel .warn) = [] ∧
      errorAlerts (check_cpu env).1 = []) := by
  constructor
  · intro h
    refine ⟨by simp [check_cpu, h], ?_, ?_⟩ <;>
      simp [check_cpu, h, errorAlerts, isMsgOfLevel]
  · intro h
    refine ⟨by simp [check_cpu, h], ?_, ?_⟩ <;>
      simp [check_cpu, h, errorAlerts, isMsgOfLevel]

/-- Witness for the amended C7: a host whose sensor query raises gets
exactly the one warning and no error; a host whose query returns an
empty sensor map gets no warning and no error. -/
theorem c7_witness :
    (check_cpu envNoTemps =
        ([.msg .info "Checking CPU usage and temperature...",
          .msg .info ("CPU Usage: " ++ fmtQ envNoTemps.cpuPercent ++ "%"),
          .msg .warn "CPU temperature data not available on this system."],
         none) ∧
      ((check_cpu envNoTemps).1.filter (isMsgOfLevel .warn)).length = 1 ∧
      errorAlerts (check_cpu envNoTemps).1 = []) ∧
    (check_cpu envEmptyTemps =
        ([.msg .info "Checking CPU usage and temperature...",
          .msg .info ("CPU Usage: " ++ fmtQ envEmptyTemps.cpuPercent ++ "%")],
         none) ∧
      (check_cpu envEmptyTemps).1.filter (isMsgOfLevel .warn) = [] ∧
      errorAlerts (check_cpu envEmptyTemps).1 = []) :=
  ⟨(c7_amended envNoTemps).1 rfl, (c7_amended envEmptyTemps).2 rfl⟩

/-! ## C6: load-average fallback (corrected) -/

/-- Host where both load-average sources fail. -/
def envLoadBothFail : Env :=
  { envOk with
    osLoadavg := .error ()
    psLoadavg := .error "getloadavg unsupported" }

/-- Counterexample for C6 as stated: when both load-average sources
fail, `check_system_load` does NOT report an error-level result — it
raises the psutil `OSError` out of the check (only the top-level
handler catches it), emitting no error-level message at all. -/
theorem c6_counterexample :
    (check_system_load envLoadBothFail).2 =
      some (.osError "getloadavg unsupported") ∧
    errorAlerts (check_system_load envLoadBothFail).1 = [] := by
  constructor <;> rfl

/-- Claim C6 as amended: `check_system_load` falls back to the
monitoring-library source (`psutil.getloadavg`) when the OS-native
source fails, and fails only when both sources fail — but in that case
the exception propagates out of the check (to the top-level handler)
instead of being reported as an error-level result by the check. -/
theorem c6_amended (env : Env) (a b c : ℚ) (m : String) :
    (env.osLoadavg = .error () → env.psLoadavg = .ok (a, b, c) →
      check_system_load env =
        ([.msg .info "Checking system load...",
          .msg .info (loadMsg a b c)], none)) ∧
    (env.osLoadavg = .error () → env.psLoadavg = .error m →
      check_system_load env =
        ([.msg .info "Checking system load..."], some (.osError m)) ∧
      errorAlerts (check_system_load env).1 = []) := by
  constructor
  · intro h1 h2
    simp [check_system_load, h1, h2]
  · intro h1 h2
    refine ⟨by simp [check_system_load, h1, h2], ?_⟩
    simp [check_system_load, h1, h2, errorAlerts, isMsgOfLevel]

/-- Host where the OS-native source fails and the fallback succeeds. -/
def envLoadFallback : Env :=
  { envOk with osLoadavg := .error (), psLoadavg := .ok (1, 2, 3) }

/-- Witness for the amended C6: fallback taken on one host; on a host
where both sources fail, the exception propagates with no error-level
message emitted by the check. -/
theorem c6_witness :
    (check_system_load envLoadFallback =
      ([.msg .info "Checking system load...",
        .msg .info (loadMsg 1 2 3)], none)) ∧
    (check_system_load envLoadBothFail =
        ([.msg .info "Checking system load..."],
         some (.osError "getloadavg unsupported")) ∧
      errorAlerts (check_system_load envLoadBothFail).1 = []) :=
  ⟨(c6_amended envLoadFallback 1 2 3 "x").1 rfl rfl,
   (c6_amended envLoadBothFail 0 0 0 "getloadavg unsupported").2 rfl rfl⟩

/-! ## C8: per-volume disk warnings -/

/-- The per-partition loop emits exactly the concatenation of the
per-partition traces and returns normally when every `disk_usage`
query succeeds. -/
theorem diskLoop_ok (cfg : Config) (env : Env) (parts : List Partition)
    (hok : ∀ p ∈ parts, (env.diskUsage p.mountpoint).isOk = true) :
    diskLoop cfg env parts =
      (parts.flatMap (fun p => (emitPart cfg env p).1), none) := by
  induction parts with
  | nil => rfl
  | cons p rest ih =>
    have hp := hok p (by simp)
    have hrest := ih (fun q hq => hok q (by simp [hq]))
    cases hu : env.diskUsage p.mountpoint with
    | error m => rw [hu] at hp; simp [Except.isOk, Except.toBool] at hp
    | ok u =>
      simp only [diskLoop, hrest]
      have h2 : (emitPart cfg env p).2 = none := by
        simp only [emitPart, hu]
        split <;> rfl
      rw [h2]
      simp

/-- Claim C8: when every enumerated volume's usage query succeeds,
`check_disk_space` returns normally with the header followed by each
volume's events in order, and for each volume the warning-level events
are exactly one warning naming that mountpoint if its used percentage
strictly exceeds `diskWarningPercent`, and none otherwise (equality
with the threshold emits no warning). -/
theorem c8_disk_warnings (cfg : Config) (env : Env)
    (hok : ∀ p ∈ env.partitions, (env.diskUsage p.mountpoint).isOk = true) :
    check_disk_space cfg env =
      (Event.msg .info "Checking disk space usage..." ::
        env.partitions.flatMap (fun p => (emitPart cfg env p).1), none) ∧
    (∀ p ∈ env.partitions, ∀ u, env.diskUsage p.mountpoint = .ok u →
      (emitPart cfg env p).1.filter (isMsgOfLevel .warn) =
        (if u.percent > (cfg.diskWarningThreshold : ℚ) then
          [Event.msg .warn
            ("High disk usage on " ++ p.mountpoint ++ ": " ++
             fmtQ u.percent ++ "%")]
        else [])) := by
  constructor
  · simp only [check_disk_space, diskLoop_ok cfg env env.partitions hok]
  · intro p _ u hu
    simp only [emitPart, hu]
    split <;> simp [isMsgOfLevel]

/-- Usage of the root volume: 95% used. -/
def du95 : DiskUsage := ⟨95, 95 * 2 ^ 30, 100 * 2 ^ 30⟩

/-- Usage of the data volume: exactly the 90% threshold. -/
def du90 : DiskUsage := ⟨90, 90 * 2 ^ 30, 100 * 2 ^ 30⟩

/-- Host with two volumes: `/` above the threshold, `/data` exactly at
it. -/
def envDisk : Env :=
  { envOk with
    partitions := [⟨"/"⟩, ⟨"/data"⟩]
    diskUsage := fun mp => if mp = "/" then .ok du95 else .ok du90 }

/-- Witness for C8: at threshold 90, the 95%-used volume `/` yields
exactly one warning naming it, and the exactly-90%-used volume `/data`
yields no warning. -/
theorem c8_witness :
    (emitPart cfgDefault envDisk ⟨"/"⟩).1.filter (isMsgOfLevel .warn) =
      [Event.msg .warn
        ("High disk usage on " ++ "/" ++ ": " ++ fmtQ du95.percent ++ "%")] ∧
    (emitPart cfgDefault envDisk ⟨"/data"⟩).1.filter (isMsgOfLevel .warn)
      = [] := by
  have h := c8_disk_warnings cfgDefault envDisk (by decide)
  constructor
  · rw [h.2 ⟨"/"⟩ (by decide) du95 rfl, if_pos (by decide)]
  · rw [h.2 ⟨"/data"⟩ (by decide) du90 rfl, if_neg (by decide)]

/-! ## C4: the restart set -/

/-- Claim C4: whenever the set-building phase completes (no exec
failure while querying), the restart set contains an `OnlyIfActive`
service (`apache2`, `nginx`) iff its live `systemctl is-active` status,
stripped, reads `active`, and it always contains the `Always` service
`mysql`, whatever its status. -/
theorem c4_restart_set (env : Env) (l : List String)
    (h : restartSet env = .ok l) :
    (∀ svc ∈ (["apache2", "nginx"] : List String),
      (svc ∈ l ↔ liveStatus env svc = some "active")) ∧
    "mysql" ∈ l := by
  cases h1 : env.runCommand ["systemctl", "is-active", "apache2"] with
  | execFail m => simp [restartSet, buildLoop, h1] at h
  | ran c1 out1 =>
    cases h2 : env.runCommand ["systemctl", "is-active", "nginx"] with
    | execFail m => simp [restartSet, buildLoop, h1, h2, Except.map] at h
    | ran c2 out2 =>
      simp only [restartSet, buildLoop, h1, h2, Except.map] at h
      injection h with h
      subst h
      constructor
      · intro svc hsvc
        simp only [List.mem_cons, List.not_mem_nil, or_false] at hsvc
        rcases hsvc with rfl | rfl <;>
          simp only [liveStatus, h1, h2, Option.some.injEq] <;>
          split <;> split <;> simp_all
      · split <;> split <;> simp

/-- Host where `apache2` reports active, `nginx` reports inactive, and
`mysql` reports inactive (so its inclusion is status-independent). -/
def envMixed : Env :=
  { envOk with
    runCommand := fun args =>
      if args = ["systemctl", "is-active", "apache2"] then .ran 0 "active\n"
      else if args = ["systemctl", "is-active", "nginx"] then
        .ran 3 "inactive\n"
      else if args = ["systemctl", "is-active", "mysql"] then
        .ran 3 "inactive\n"
      else .ran 0 "" }

/-- Witness for C4: with apache2 active and nginx inactive the restart
set is exactly `[apache2, mysql]` — nginx excluded, mysql included even
though it reports inactive. -/
theorem c4_witness :
    (∀ svc ∈ (["apache2", "nginx"] : List String),
      (svc ∈ (["apache2", "mysql"] : List String) ↔
        liveStatus envMixed svc = some "active")) ∧
    "mysql" ∈ (["apache2", "mysql"] : List String) :=
  c4_restart_set envMixed ["apache2", "mysql"] rfl

/-! ## C5: restart failure handling (corrected) -/

/-- Host where the service-status queries succeed (everything reports
inactive, so the restart set is just `mysql`) but invoking the restart
command itself fails at the OS level (e.g. the binary is missing). -/
def envRestartExecFail : Env :=
  { envOk with
    runCommand := fun args =>
      if args = ["systemctl", "restart", "mysql"] then
        .execFail "FileNotFoundError: systemctl"
      else .ran 3 "inactive\n" }

/-- Counterexample for C5 as stated: an OS-level invocation error
(binary missing → `FileNotFoundError`) during the restart of `mysql` is
NOT folded into the `failed to restart or find service` category — no
such error message is emitted, and the exception escapes
`restart_services` instead of processing continuing. -/
theorem c5_counterexample :
    (restart_services envRestartExecFail).2 =
      some (.osError "FileNotFoundError: systemctl") ∧
    Event.msg .error ("Failed to restart or find service: " ++ "mysql") ∉
      (restart_services envRestartExecFail).1 := by
  constructor
  · rfl
  · decide

/-- Claim C5 as amended: for every service in the restart set, a
restart command that runs and exits with a nonzero status — the
`CalledProcessError` the script catches (unit not found, restart
refused) — is folded into the single `failed to restart or find
service` error naming the service, and processing continues through
every remaining service with no exception escaping; but an OS-level
invocation error of the subprocess itself (binary missing, permission
denied at exec) is not caught and propagates out of the loop.  The
theorem states the caught half: when every invocation execs (so only
exit-status failures occur), the loop visits every service in order,
returns normally, and emits the folded error for each failing one. -/
theorem c5_amended (env : Env) (svcs : List String)
    (hran : ∀ args, (env.runCommand args).isRan = true) :
    restartLoop env svcs =
      (svcs.flatMap (fun s => (restartOne env s).1), none) ∧
    ∀ svc ∈ svcs, restartCmdFails env svc = true →
      Event.msg .error ("Failed to restart or find service: " ++ svc) ∈
        (restartLoop env svcs).1 := by
  have hone : ∀ svc, (restartOne env svc).2 = none := by
    intro svc
    have h1 := hran ["systemctl", "restart", svc]
    have h2 := hran ["systemctl", "is-active", svc]
    simp only [restartOne]
    cases hr : env.runCommand ["systemctl", "restart", svc] with
    | execFail m => rw [hr] at h1; simp [CmdOutcome.isRan] at h1
    | ran c out =>
      cases hs : env.runCommand ["systemctl", "is-active", svc] with
      | execFail m => rw [hs] at h2; simp [CmdOutcome.isRan] at h2
      | ran c2 out2 => by_cases hc : c = 0 <;> simp [hc]
  have hmain : restartLoop env svcs =
      (svcs.flatMap (fun s => (restartOne env s).1), none) := by
    induction svcs with
    | nil => rfl
    | cons svc rest ih =>
      simp only [restartLoop, hone svc, ih, List.flatMap_cons]
  refine ⟨hmain, ?_⟩
  intro svc hsvc hfail
  rw [hmain]
  simp only [List.mem_flatMap]
  refine ⟨svc, hsvc, ?_⟩
  have h1 := hran ["systemctl", "restart", svc]
  simp only [restartCmdFails] at hfail
  simp only [restartOne]
  cases hr : env.runCommand ["systemctl", "restart", svc] with
  | execFail m => rw [hr] at h1; simp [CmdOutcome.isRan] at h1
  | ran c out =>
    rw [hr] at hfail
    simp only [decide_eq_true_eq] at hfail
    simp [hfail]

/-- Host where every command execs, but restarting `nginx` exits
nonzero while `apache2` and `mysql` restart cleanly (all three report
active). -/
def envNginxRestartFails : Env :=
  { envOk with
    runCommand := fun args =>
      if args = ["systemctl", "restart", "nginx"] then .ran 5 ""
      else .ran 0 "active\n" }

/-- Witness for the amended C5: with `nginx` failing to restart amid
`apache2` and `mysql`, the loop returns normally, visits all three
services, and emits the folded error naming `nginx`. -/
theorem c5_witness :
    restartLoop envNginxRestartFails ["apache2", "nginx", "mysql"] =
      ((["apache2", "nginx", "mysql"] : List String).flatMap
        (fun s => (restartOne envNginxRestartFails s).1), none) ∧
    Event.msg .error ("Failed to restart or find service: " ++ "nginx") ∈
      (restartLoop envNginxRestartFails ["apache2", "nginx", "mysql"]).1 := by
  have h := c5_amended envNginxRestartFails ["apache2", "nginx", "mysql"]
    (fun args => by
      simp only [envNginxRestartFails]
      split <;> rfl)
  exact ⟨h.1, h.2 "nginx" (by decide) (by decide)⟩

/-! ## C1: website probe (code bug: `requests` is never imported) -/

/-- Claim C1 fails on the code as written: the script uses
`requests.get` but never imports `requests`, so for EVERY non-empty
website list `check_websites` raises `NameError` on the first target —
before issuing a single probe — instead of producing one leveled result
per target; even the `except` clause re-raises `NameError` because it
names `requests` too.  This theorem evaluates the code at any such
input: no HTTP request, no sleep, and no per-target result occurs. -/
theorem c1_missing_requests_import (cfg : Config) (env : Env)
    (h : cfg.websites ≠ []) :
    requestsBound = false ∧
    check_websites cfg env =
      ([Event.msg .info "Checking website statuses..."],
       some (.nameError "requests")) := by
  refine ⟨by decide, ?_⟩
  obtain ⟨u, rest, hw⟩ := List.exists_cons_of_ne_nil h
  have hb : requestsBound = false := by decide
  simp [check_websites, hw, siteLoop, probeSiteCaught, probeSiteRaw, hb]

/-- The default configuration with a single website target. -/
def cfgOneSite : Config := { cfgDefault with websites := ["https://example.test"] }

/-- Witness for C1's failing input: with the single target
`https://example.test` (on an otherwise healthy host whose HTTP oracle
would even answer 200), the probe raises `NameError` and emits no
result for the target. -/
theorem c1_witness :
    requestsBound = false ∧
    check_websites cfgOneSite envOk =
      ([Event.msg .info "Checking website statuses..."],
       some (.nameError "requests")) :=
  c1_missing_requests_import cfgOneSite envOk (by decide)

/-! ## C2: the orchestrator sequence (corrected) -/

/-- Whatever the outcomes, the stages entered are an in-order,
gap-free prefix of the given stage list. -/
theorem invokedStages_take (cfg : Config) (env : Env) (l : List Stage) :
    ∃ n, invokedStages cfg env l = l.take n := by
  induction l with
  | nil => exact ⟨0, rfl⟩
  | cons s rest ih =>
    obtain ⟨n, hn⟩ := ih
    cases hs : (runStage cfg env s).2 with
    | some e => exact ⟨1, by simp [invokedStages, hs]⟩
    | none => exact ⟨n + 1, by simp [invokedStages, hs, hn]⟩

/-- When no stage raises, every stage of the list is entered. -/
theorem invokedStages_all (cfg : Config) (env : Env) (l : List Stage)
    (h : ∀ s ∈ l, (runStage cfg env s).2 = none) :
    invokedStages cfg env l = l := by
  induction l with
  | nil => rfl
  | cons s rest ih =>
    have hs := h s (by simp)
    simp only [invokedStages, hs]
    rw [ih (fun t ht => h t (by simp [ht]))]

/-- Host on which the `systemctl` binary is missing: every subprocess
invocation fails at exec, so `restart_services` raises
`FileNotFoundError` while building the restart set. -/
def envNoSystemctl : Env :=
  { envOk with
    runCommand := fun _ => .execFail "FileNotFoundError: systemctl" }

/-- Counterexample for C2 as stated: with the default configuration on
a host whose `systemctl` binary is missing, the ServiceRestart stage
raises an uncaught exception and NONE of the later stages (the three
LogScans and the WebsiteProbe) run — a failure in one stage does
prevent later stages from running. -/
theorem c2_counterexample :
    invokedStages cfgDefault envNoSystemctl (stageList cfgDefault) =
      [Stage.load, .cpu, .disk, .memory, .serviceRestart] ∧
    invokedStages cfgDefault envNoSystemctl (stageList cfgDefault) ≠
      stageList cfgDefault := by
  constructor <;> decide

/-- Claim C2 as amended: `main` invokes the stages in the fixed linear
order Load, CPU, Disk, Memory, ServiceRestart, LogScan(Apache),
LogScan(Nginx), LogScan(MySQL), WebsiteProbe with no branching on prior
results — the stages entered always form an in-order prefix of that
sequence — and every stage runs exactly once provided no stage raises
an uncaught exception; a stage failure that is reported as a leveled
message (returning normally) never prevents later stages, but an
uncaught exception aborts the remainder of the pipeline. -/
theorem c2_amended (cfg : Config) (env : Env) :
    (∃ n, invokedStages cfg env (stageList cfg) = (stageList cfg).take n) ∧
    ((∀ s ∈ stageList cfg, (runStage cfg env s).2 = none) →
      invokedStages cfg env (stageList cfg) = stageList cfg) :=
  ⟨invokedStages_take cfg env (stageList cfg),
   invokedStages_all cfg env (stageList cfg)⟩

/-- Witness for the amended C2: on a healthy host with the default
configuration every stage returns normally and all nine stages run,
in order. -/
theorem c2_witness :
    invokedStages cfgDefault envOk (stageList cfgDefault) =
      stageList cfgDefault :=
  (c2_amended cfgDefault envOk).2 (by decide)
